import Mathlib

/-!
Shallow embedding of the billing/entitlement flow of the sales-research SaaS
dashboard: the Prisma-backed relational store (User and Payment rows), the
Stripe webhook route handler (app/api/webhook/stripe, here from the route
source), the lazy customer-provisioning routine of the dashboard layout
(apps/nextjs/app/dashboard/layout.tsx), and the billing page's entitlement
read (dashboard/billing page source).

External effects (Stripe library calls, Clerk session reads) are passed in as
explicit parameters; the database is an explicit value threaded through each
handler. JavaScript string/null truthiness is modelled explicitly where the
source relies on it.
-/

namespace SaaS

/-- A row of the `User` table:
`User(user_id PK, clerk_id UNIQUE, email, name, stripe_customer_id NULLABLE)`. -/
structure User where
  user_id : Nat
  clerk_id : String
  email : String
  name : String
  stripe_customer_id : Option String
deriving DecidableEq, Repr

/-- A row of the `Payment` table:
`Payment(payment_id PK, user_id FK, stripe_payment_id, amount DECIMAL, currency, status)`.
The DECIMAL amount is modelled as a rational number. -/
structure Payment where
  payment_id : Nat
  user_id : Nat
  stripe_payment_id : String
  amount : Rat
  currency : String
  status : String
deriving DecidableEq, Repr

/-- The relational store: the two active tables (the parallel `Subscription`
table has no active code path writing or reading it). Row order is insertion
order, which is what `findFirst` without an `orderBy` traverses. -/
structure DB where
  users : List User
  payments : List Payment
deriving DecidableEq, Repr

/-- `prisma.user.findUnique({ where: { clerk_id } })`. -/
def findUserByClerk (db : DB) (clerkId : String) : Option User :=
  db.users.find? (fun u => u.clerk_id == clerkId)

/-- `prisma.user.findUnique({ where: { stripe_customer_id } })`. -/
def findUserByStripe (db : DB) (customerId : String) : Option User :=
  db.users.find? (fun u => u.stripe_customer_id == some customerId)

/-- Follow a Payment row's `user_id` foreign key to its owning User row. -/
def findUserById (db : DB) (uid : Nat) : Option User :=
  db.users.find? (fun u => u.user_id == uid)

/-- `prisma.user.create({ data: { clerk_id, email, name } })`: the new row's
`stripe_customer_id` is left NULL; the surrogate `user_id` is generated. -/
def createUser (db : DB) (clerkId email name : String) : DB :=
  { db with users := db.users ++
      [{ user_id := db.users.length, clerk_id := clerkId, email := email,
         name := name, stripe_customer_id := none }] }

/-- `prisma.user.update({ where: { clerk_id }, data: { stripe_customer_id } })`. -/
def updateUserStripeId (db : DB) (clerkId customerId : String) : DB :=
  { db with users := db.users.map (fun u =>
      if u.clerk_id == clerkId then { u with stripe_customer_id := some customerId } else u) }

/-- `prisma.payment.create({ data: ... })` with a generated surrogate key. -/
def createPayment (db : DB) (stripePaymentId : String) (uid : Nat) (amount : Rat)
    (currency status : String) : DB :=
  { db with payments := db.payments ++
      [{ payment_id := db.payments.length, user_id := uid,
         stripe_payment_id := stripePaymentId, amount := amount,
         currency := currency, status := status }] }

/-- JavaScript falsiness of a nullable string: `null`/`undefined` and the empty
string are falsy, every other string truthy. -/
def jsFalsy : Option String → Bool
  | none => true
  | some s => s == ""

namespace StripeWebhook

/-- The fields of `event.data.object as Stripe.Checkout.Session` that the
webhook route reads. `customer` is already coerced to a string
(`String(session.customer)` in the source); `amount_total` is nullable. -/
structure CheckoutSession where
  mode : String
  customer : String
  payment_intent : String
  amount_total : Option Int
  currency : String
  payment_status : String
deriving DecidableEq, Repr

/-- A verified Stripe event: its `type` string and its data object, read as a
checkout session. -/
structure StripeEvent where
  type : String
  data : CheckoutSession
deriving DecidableEq, Repr

/-- Outcome of one webhook delivery: an HTTP response together with the
resulting store, or an uncaught exception (`throw new Error(...)`) together
with the store as of the throw. -/
inductive WebhookResult where
  | response (status : Nat) (db : DB)
  | thrown (msg : String) (db : DB)
deriving DecidableEq, Repr

/-- The store carried by a webhook outcome. -/
def dbOf : WebhookResult → DB
  | .response _ db => db
  | .thrown _ db => db

/-- The `POST` route handler. `constructed` is the result of
`stripe.webhooks.constructEvent(body, signature, secret)`: `none` when the
library throws (signature verification failure), `some event` otherwise.
Mirrors the source: 400 on verification failure; on
`checkout.session.completed` in `subscription` mode the handler body is fully
commented out (no-op); in `payment` mode it resolves the User by
`stripe_customer_id`, throws `User not found` when absent, otherwise inserts
one Payment row with `amount = (session.amount_total ?? 0) / 100` and the
session's `payment_status` copied verbatim; the `invoice.payment_succeeded`
branch is fully commented out (no-op); every non-throwing path returns 200. -/
def POST (constructed : Option StripeEvent) (db : DB) : WebhookResult :=
  match constructed with
  | none => WebhookResult.response 400 db
  | some event =>
    if event.type == "checkout.session.completed" then
      if event.data.mode == "subscription" then
        WebhookResult.response 200 db
      else if event.data.mode == "payment" then
        match findUserByStripe db event.data.customer with
        | none => WebhookResult.thrown "User not found" db
        | some user =>
          WebhookResult.response 200
            (createPayment db event.data.payment_intent user.user_id
              (((event.data.amount_total.getD 0 : Int) : Rat) / 100)
              event.data.currency event.data.payment_status)
      else
        WebhookResult.response 200 db
    else
      WebhookResult.response 200 db

end StripeWebhook

namespace BillingPage

/-- The relation filter `where: { user: { clerk_id } }` applied to a Payment
row: its owning User (by the `user_id` foreign key) has the given Clerk id. -/
def ownedBy (db : DB) (clerkId : String) (p : Payment) : Bool :=
  match findUserById db p.user_id with
  | some u => u.clerk_id == clerkId
  | none => false

/-- The billing page's read,
`prisma.payment.findFirst({ where: { user: { clerk_id } } })`: the first
Payment row (in store order) whose owning User has the given `clerk_id`.
There is no filter on `status`. -/
def getData (db : DB) (clerkId : String) : Option Payment :=
  db.payments.find? (ownedBy db clerkId)

/-- The page's branch condition `data?.status === 'paid'`: selects the
"manage subscription" branch when true, the "offer to purchase" branch
otherwise. -/
def entitled (db : DB) (clerkId : String) : Bool :=
  match getData db clerkId with
  | some d => d.status == "paid"
  | none => false

end BillingPage

namespace Dashboard

/-- Outcome of the layout's `getData` provisioning call: the resulting store,
the propagated exception (if the `stripe.customers.create` call rejected), and
the email the Stripe customer-creation call was invoked with (if it was made
at all). -/
structure ProvisionResult where
  db : DB
  thrownError : Option String
  stripeCalledWith : Option String
deriving DecidableEq, Repr

/-- The JavaScript guard `!user?.stripe_customer_id` on the (re-fetched)
lookup result: true when no row was found, or the row's reference is NULL or
the empty string. -/
def refMissing : Option User → Bool
  | none => true
  | some u => jsFalsy u.stripe_customer_id

/-- The dashboard layout's `getData` provisioning routine.
`sc` stands for `stripe.customers.create({ email })`, returning the new
customer's id or rejecting. Mirrors the source: look up the User by Clerk id;
if absent, create it (name is a template literal with a space between the
null-coalesced name parts) and re-fetch; if the (re-fetched) row's
`stripe_customer_id` is falsy, create a Stripe customer keyed by the email and
persist its id onto the row scoped by the Clerk id (a rejection of the Stripe
call propagates before any update is issued). In the no-create branch the
re-fetched row equals the first lookup since the store is unchanged.
`profileImage` is accepted and unused, as in the source. -/
def getData (sc : String → Except String String) (email clerkId : String)
    (firstName lastName profileImage : Option String) (db : DB) : ProvisionResult :=
  let db1 :=
    if (findUserByClerk db clerkId).isNone then
      createUser db clerkId email ((firstName.getD "") ++ " " ++ (lastName.getD ""))
    else db
  if refMissing (findUserByClerk db1 clerkId) then
    match sc email with
    | Except.error e => { db := db1, thrownError := some e, stripeCalledWith := some email }
    | Except.ok cid =>
        { db := updateUserStripeId db1 clerkId cid, thrownError := none,
          stripeCalledWith := some email }
  else
    { db := db1, thrownError := none, stripeCalledWith := none }

/-- The fields of the Clerk `currentUser()` resource that the layout reads. -/
structure SessionUser where
  emailAddresses : List String
  firstName : Option String
  lastName : Option String
  imageUrl : Option String
deriving DecidableEq, Repr

/-- Outcome of rendering the protected layout: either a redirect to the
public landing page (carrying the untouched store, since `getData` was never
invoked), or a render after provisioning ran. -/
inductive LayoutResult where
  | redirectHome (db : DB)
  | rendered (res : ProvisionResult)
deriving DecidableEq, Repr

/-- The `DashboardLayout` server component. `userId` is `auth().userId`,
`user` is `currentUser()`. Mirrors the source guards: `!userId || !user`
redirects to `/`; then `email = user.emailAddresses[0]?.emailAddress` and
`!email` redirects to `/`; otherwise `getData` runs with the session's
fields. -/
def DashboardLayout (sc : String → Except String String)
    (userId : Option String) (user : Option SessionUser) (db : DB) : LayoutResult :=
  if jsFalsy userId || user.isNone then
    LayoutResult.redirectHome db
  else
    match user with
    | none => LayoutResult.redirectHome db
    | some u =>
      if jsFalsy u.emailAddresses.head? then
        LayoutResult.redirectHome db
      else
        LayoutResult.rendered
          (getData sc (u.emailAddresses.head?.getD "") (userId.getD "")
            u.firstName u.lastName u.imageUrl db)

end Dashboard

open StripeWebhook BillingPage Dashboard

/-- Claim C3: for every webhook request whose signature verification fails
(event reconstruction throws), the handler responds 400 and performs no state
change: the store is returned untouched, so no Payment row is created and no
other write occurs. -/
theorem webhook_bad_signature_no_change (db : DB) :
    POST none db = WebhookResult.response 400 db := rfl

/-- Claim C2: for every `checkout.session.completed` event in `payment` mode
whose session's customer reference resolves to an existing User, the handler
inserts exactly one Payment row carrying the session's payment reference, the
resolved user's internal id, `amount_total / 100` as amount, the session's
currency, and the session's payment status verbatim; users are untouched and
the response is 200. -/
theorem webhook_payment_inserts_row (db : DB) (ev : StripeEvent) (u : User) (a : Int)
    (h1 : ev.type = "checkout.session.completed")
    (h2 : ev.data.mode = "payment")
    (h3 : findUserByStripe db ev.data.customer = some u)
    (h4 : ev.data.amount_total = some a) :
    POST (some ev) db = WebhookResult.response 200
      { users := db.users,
        payments := db.payments ++
          [{ payment_id := db.payments.length, user_id := u.user_id,
             stripe_payment_id := ev.data.payment_intent, amount := (a : Rat) / 100,
             currency := ev.data.currency, status := ev.data.payment_status }] } := by
  simp [POST, h1, h2, h3, h4, createPayment]

/-- A User row used as concrete input for witnesses. -/
def wUser : User :=
  { user_id := 7, clerk_id := "u_1", email := "a@b.com", name := "A B",
    stripe_customer_id := some "cus_123" }

/-- A one-user, no-payment store used as concrete input for witnesses. -/
def wDB : DB := { users := [wUser], payments := [] }

/-- The spec's scenario session: `payment` mode, `amount_total=4000`,
`currency="usd"`, `payment_status="paid"`, `customer="cus_123"`. -/
def wSession : CheckoutSession :=
  { mode := "payment", customer := "cus_123", payment_intent := "pi_1",
    amount_total := some 4000, currency := "usd", payment_status := "paid" }

/-- The spec's scenario event. -/
def wEv : StripeEvent := { type := "checkout.session.completed", data := wSession }

theorem webhook_payment_inserts_row_witness :
    POST (some wEv) wDB = WebhookResult.response 200
      { users := wDB.users,
        payments := wDB.payments ++
          [{ payment_id := wDB.payments.length, user_id := wUser.user_id,
             stripe_payment_id := wEv.data.payment_intent,
             amount := ((4000 : Int) : Rat) / 100,
             currency := wEv.data.currency, status := wEv.data.payment_status }] } :=
  webhook_payment_inserts_row wDB wEv wUser 4000 rfl rfl rfl rfl

/-- Claim C4: for every `checkout.session.completed` event in `payment` mode
whose session's customer reference matches no User's `stripe_customer_id`,
the handler throws `User not found` and the store is unchanged: no Payment
row is created. -/
theorem webhook_unknown_customer_throws (db : DB) (ev : StripeEvent)
    (h1 : ev.type = "checkout.session.completed")
    (h2 : ev.data.mode = "payment")
    (h3 : findUserByStripe db ev.data.customer = none) :
    POST (some ev) db = WebhookResult.thrown "User not found" db := by
  simp [POST, h1, h2, h3]

/-- The scenario event redirected at an unknown customer id. -/
def w4Ev : StripeEvent :=
  { type := "checkout.session.completed", data := { wSession with customer := "cus_999" } }

theorem webhook_unknown_customer_throws_witness :
    POST (some w4Ev) wDB = WebhookResult.thrown "User not found" wDB :=
  webhook_unknown_customer_throws wDB w4Ev rfl rfl rfl

/-- Claim C10: for every `checkout.session.completed` event in `payment` mode
with a known customer whose session carries no `amount_total` (null), the
handler still inserts the Payment row and records amount 0
(`(session.amount_total ?? 0) / 100`), rather than rejecting the event. -/
theorem webhook_null_amount_inserts_zero (db : DB) (ev : StripeEvent) (u : User)
    (h1 : ev.type = "checkout.session.completed")
    (h2 : ev.data.mode = "payment")
    (h3 : findUserByStripe db ev.data.customer = some u)
    (h4 : ev.data.amount_total = none) :
    POST (some ev) db = WebhookResult.response 200
      { users := db.users,
        payments := db.payments ++
          [{ payment_id := db.payments.length, user_id := u.user_id,
             stripe_payment_id := ev.data.payment_intent, amount := 0,
             currency := ev.data.currency, status := ev.data.payment_status }] } := by
  simp [POST, h1, h2, h3, h4, createPayment]

/-- The scenario event with a null `amount_total`. -/
def w10Ev : StripeEvent :=
  { type := "checkout.session.completed", data := { wSession with amount_total := none } }

theorem webhook_null_amount_inserts_zero_witness :
    POST (some w10Ev) wDB = WebhookResult.response 200
      { users := wDB.users,
        payments := wDB.payments ++
          [{ payment_id := wDB.payments.length, user_id := wUser.user_id,
             stripe_payment_id := w10Ev.data.payment_intent, amount := 0,
             currency := w10Ev.data.currency, status := w10Ev.data.payment_status }] } :=
  webhook_null_amount_inserts_zero wDB w10Ev wUser rfl rfl rfl rfl

/-- Claim C8: every validly-signed `checkout.session.completed` event in
`subscription` mode, every `invoice.payment_succeeded` event, and every event
of any other kind is a no-op answered 200 with the store untouched; moreover
across all delivered events, each delivery leaves users unchanged and appends
either zero or exactly one Payment row (no other persistent side effect). -/
theorem webhook_noop_events_and_frame (ev : StripeEvent) (db : DB) :
    ((ev.type = "checkout.session.completed" ∧ ev.data.mode = "subscription") ∨
        ev.type = "invoice.payment_succeeded" ∨
        (ev.type ≠ "checkout.session.completed" ∧ ev.type ≠ "invoice.payment_succeeded") →
      POST (some ev) db = WebhookResult.response 200 db) ∧
    (dbOf (POST (some ev) db)).users = db.users ∧
    ((dbOf (POST (some ev) db)).payments = db.payments ∨
      ∃ p, (dbOf (POST (some ev) db)).payments = db.payments ++ [p]) := by
  refine ⟨?_, ?_⟩
  · rintro (⟨h1, h2⟩ | h1 | ⟨h1, h2⟩)
    · simp [POST, h1, h2]
    · simp [POST, h1]
    · simp [POST, h1]
  · simp only [POST]
    split_ifs with h1 h2 h3
    · simp [dbOf]
    · cases hf : findUserByStripe db ev.data.customer with
      | none => simp [dbOf, hf]
      | some u => simp [dbOf, hf, createPayment]
    · simp [dbOf]
    · simp [dbOf]

/-- The scenario session in `subscription` mode. -/
def w8Ev : StripeEvent :=
  { type := "checkout.session.completed", data := { wSession with mode := "subscription" } }

theorem webhook_noop_events_and_frame_witness :
    POST (some w8Ev) wDB = WebhookResult.response 200 wDB :=
  (webhook_noop_events_and_frame w8Ev wDB).1 (Or.inl ⟨rfl, rfl⟩)

/-- A user whose first Payment row is unpaid while a later one is paid. -/
def cxUser : User :=
  { user_id := 1, clerk_id := "u_1", email := "a@b.com", name := "A B",
    stripe_customer_id := some "cus_123" }

/-- The user's first Payment row: status is not `paid`. -/
def cxPayUnpaid : Payment :=
  { payment_id := 1, user_id := 1, stripe_payment_id := "pi_1", amount := 40,
    currency := "usd", status := "unpaid" }

/-- The user's second Payment row: status `paid`. -/
def cxPayPaid : Payment :=
  { payment_id := 2, user_id := 1, stripe_payment_id := "pi_2", amount := 40,
    currency := "usd", status := "paid" }

/-- A store on which a paid row exists but is not the first row found. -/
def cxDB : DB := { users := [cxUser], payments := [cxPayUnpaid, cxPayPaid] }

/-- Claim C1 is false as stated: on `cxDB`, user `u_1` owns a Payment row with
status `paid`, yet the billing page's branch condition is false (the purchase
offer is rendered, not "manage subscription"), because the page's `findFirst`
has no status filter and the first row found is unpaid. -/
theorem billing_entitlement_counterexample :
    (∃ p ∈ cxDB.payments, ownedBy cxDB "u_1" p = true ∧ p.status = "paid") ∧
      entitled cxDB "u_1" = false := by
  exact ⟨⟨cxPayPaid, by decide, rfl, rfl⟩, rfl⟩

/-- Claim C1 amended: entitlement (the "manage subscription" branch) holds if
and only if the user owns at least one Payment row and the first such row in
store order has status `paid`; the existence of some paid row is not by
itself sufficient. -/
theorem billing_entitlement_first_owned_payment (db : DB) (clerkId : String) :
    entitled db clerkId = true ↔
      ∃ l1 p l2, db.payments = l1 ++ p :: l2 ∧ ownedBy db clerkId p = true ∧
        p.status = "paid" ∧ ∀ q ∈ l1, ownedBy db clerkId q = false := by
  unfold entitled BillingPage.getData
  constructor
  · intro h
    cases hf : db.payments.find? (ownedBy db clerkId) with
    | none => rw [hf] at h; simp at h
    | some p =>
      rw [hf] at h
      have hs : p.status = "paid" := by simpa using h
      obtain ⟨hp, l1, l2, heq, hprev⟩ := List.find?_eq_some.mp hf
      exact ⟨l1, p, l2, heq, hp, hs, fun q hq => by simpa using hprev q hq⟩
  · rintro ⟨l1, p, l2, heq, hp, hs, hprev⟩
    have hnone : l1.find? (ownedBy db clerkId) = none :=
      List.find?_eq_none.mpr (fun q hq => by simp [hprev q hq])
    have hf : db.payments.find? (ownedBy db clerkId) = some p := by
      rw [heq, List.find?_append, hnone]
      simp [List.find?_cons, hp]
    rw [hf]
    simpa using hs

/-- When no User row carries the Clerk id, `createUser` followed by the
re-fetch finds exactly the freshly created row. -/
theorem findUserByClerk_createUser_of_none (db : DB) (clerkId email nm : String)
    (hA : findUserByClerk db clerkId = none) :
    findUserByClerk (createUser db clerkId email nm) clerkId =
      some { user_id := db.users.length, clerk_id := clerkId, email := email,
             name := nm, stripe_customer_id := none } := by
  unfold findUserByClerk createUser at *
  rw [List.find?_append, hA]
  simp [List.find?_cons]

/-- Claim C6: when the User row for the Clerk id exists and already carries a
non-empty `stripe_customer_id`, provisioning is an idempotent no-op: the
Stripe customer-creation call is not made, no exception is raised, and the
store is returned exactly as it was. -/
theorem provision_idempotent_noop (sc : String → Except String String)
    (email clerkId : String) (fn ln pim : Option String) (db : DB) (u : User) (s : String)
    (h1 : findUserByClerk db clerkId = some u)
    (h2 : u.stripe_customer_id = some s) (h3 : s ≠ "") :
    Dashboard.getData sc email clerkId fn ln pim db =
      { db := db, thrownError := none, stripeCalledWith := none } := by
  unfold Dashboard.getData
  simp [h1, refMissing, jsFalsy, h2, h3]

/-- A User row already carrying a non-empty customer reference. -/
def w6User : User :=
  { user_id := 3, clerk_id := "u_6", email := "c@d.com", name := "C D",
    stripe_customer_id := some "cus_existing" }

/-- A store whose only user is fully provisioned. -/
def w6DB : DB := { users := [w6User], payments := [] }

/-- A concrete Stripe customer-creation oracle that always succeeds. -/
def wSC : String → Except String String := fun _ => Except.ok "cus_new"

theorem provision_idempotent_noop_witness :
    Dashboard.getData wSC "c@d.com" "u_6" none none none w6DB =
      { db := w6DB, thrownError := none, stripeCalledWith := none } :=
  provision_idempotent_noop wSC "c@d.com" "u_6" none none none w6DB w6User
    "cus_existing" rfl rfl (by decide)

/-- Claim C5: on a first authenticated visit (no User row for the subject id)
with a successful Stripe customer creation, provisioning raises no exception,
calls the Stripe customer creation exactly with the visitor's email, leaves
payments untouched, and afterwards exactly one User row keyed by the subject
id exists — the freshly created row with the given email and template-literal
name, now carrying the new billing-customer reference. -/
theorem provision_first_visit_creates_user_and_customer
    (sc : String → Except String String) (email clerkId cid : String)
    (fn ln pim : Option String) (db : DB)
    (h0 : ∀ u ∈ db.users, u.clerk_id ≠ clerkId)
    (h1 : sc email = Except.ok cid) :
    (Dashboard.getData sc email clerkId fn ln pim db).thrownError = none ∧
    (Dashboard.getData sc email clerkId fn ln pim db).stripeCalledWith = some email ∧
    (Dashboard.getData sc email clerkId fn ln pim db).db.payments = db.payments ∧
    (Dashboard.getData sc email clerkId fn ln pim db).db.users.filter
        (fun u => u.clerk_id == clerkId) =
      [{ user_id := db.users.length, clerk_id := clerkId, email := email,
         name := (fn.getD "") ++ " " ++ (ln.getD ""),
         stripe_customer_id := some cid }] := by
  have hA : findUserByClerk db clerkId = none := by
    unfold findUserByClerk
    exact List.find?_eq_none.mpr (fun u hu => by simp [h0 u hu])
  have hB := findUserByClerk_createUser_of_none db clerkId email
    ((fn.getD "") ++ " " ++ (ln.getD "")) hA
  unfold Dashboard.getData
  rw [hA]
  simp only [Option.isNone_none, if_true, hB, refMissing, jsFalsy, if_pos, h1]
  refine ⟨trivial, trivial, by simp [updateUserStripeId, createUser], ?_⟩
  simp only [updateUserStripeId, createUser, List.map_append, List.filter_append]
  have hmap : db.users.map (fun u =>
      if u.clerk_id == clerkId then { u with stripe_customer_id := some cid } else u) =
      db.users := by
    rw [List.map_congr_left (g := fun u => u) (fun u hu => by simp [h0 u hu])]
    simp
  rw [hmap]
  have hnil : db.users.filter (fun u => u.clerk_id == clerkId) = [] :=
    List.filter_eq_nil_iff.mpr (fun u hu => by simp [h0 u hu])
  rw [hnil]
  simp

/-- A visitor with no User row yet. -/
def w5DB : DB := { users := [w6User], payments := [] }

theorem provision_first_visit_creates_user_and_customer_witness :
    (Dashboard.getData wSC "a@b.com" "u_1" (some "A") (some "B") none w5DB).thrownError
        = none ∧
    (Dashboard.getData wSC "a@b.com" "u_1" (some "A") (some "B") none w5DB).stripeCalledWith
        = some "a@b.com" ∧
    (Dashboard.getData wSC "a@b.com" "u_1" (some "A") (some "B") none w5DB).db.payments
        = w5DB.payments ∧
    (Dashboard.getData wSC "a@b.com" "u_1" (some "A") (some "B") none w5DB).db.users.filter
        (fun u => u.clerk_id == "u_1") =
      [{ user_id := w5DB.users.length, clerk_id := "u_1", email := "a@b.com",
         name := ((some "A").getD "") ++ " " ++ ((some "B").getD ""),
         stripe_customer_id := some "cus_new" }] :=
  provision_first_visit_creates_user_and_customer wSC "a@b.com" "u_1" "cus_new"
    (some "A") (some "B") none w5DB (by decide) rfl

/-- Claim C7: when the Stripe customer-creation call rejects, the failure
propagates out of provisioning and no billing-customer reference is written:
every User row carrying the subject id still has a falsy (absent) reference
afterwards, and payments are untouched. The hypothesis states the rows for
the subject id were providerless going in, which is exactly the condition
under which the Stripe call is reached. -/
theorem provision_stripe_failure_no_partial_write
    (sc : String → Except String String) (email clerkId : String)
    (fn ln pim : Option String) (db : DB) (e : String)
    (h0 : ∀ u ∈ db.users, u.clerk_id = clerkId → jsFalsy u.stripe_customer_id = true)
    (h1 : sc email = Except.error e) :
    (Dashboard.getData sc email clerkId fn ln pim db).thrownError = some e ∧
    (Dashboard.getData sc email clerkId fn ln pim db).db.payments = db.payments ∧
    ∀ u ∈ (Dashboard.getData sc email clerkId fn ln pim db).db.users,
      u.clerk_id = clerkId → jsFalsy u.stripe_customer_id = true := by
  unfold Dashboard.getData
  cases hA : findUserByClerk db clerkId with
  | some u =>
    have hmem : u ∈ db.users := List.mem_of_find?_eq_some hA
    have hpc : u.clerk_id = clerkId := by
      have := List.find?_some hA
      simpa using this
    have hflsy := h0 u hmem hpc
    simp [hA, refMissing, hflsy, h1]
    exact h0
  | none =>
    have hB := findUserByClerk_createUser_of_none db clerkId email
      ((fn.getD "") ++ " " ++ (ln.getD "")) hA
    simp only [hA, Option.isNone_none, if_true, hB, refMissing, jsFalsy, h1]
    refine ⟨trivial, by simp [createUser], ?_⟩
    intro u hu _
    simp only [createUser] at hu
    rcases List.mem_append.mp hu with hu | hu
    · exact h0 u hu (by assumption)
    · simp at hu
      rw [hu]

/-- A concrete Stripe customer-creation oracle that always rejects. -/
def wSCfail : String → Except String String := fun _ => Except.error "stripe down"

theorem provision_stripe_failure_no_partial_write_witness :
    (Dashboard.getData wSCfail "a@b.com" "u_1" none none none
        { users := [], payments := [] }).thrownError = some "stripe down" ∧
    (Dashboard.getData wSCfail "a@b.com" "u_1" none none none
        { users := [], payments := [] }).db.payments = [] ∧
    ∀ u ∈ (Dashboard.getData wSCfail "a@b.com" "u_1" none none none
        { users := [], payments := [] }).db.users,
      u.clerk_id = "u_1" → jsFalsy u.stripe_customer_id = true :=
  provision_stripe_failure_no_partial_write wSCfail "a@b.com" "u_1" none none none
    { users := [], payments := [] } "stripe down" (by simp) rfl

/-- Claim C9: with no valid session (`auth()` userId or `currentUser()`
absent/falsy) or with an identity assertion carrying no usable email address
(no first address, or an empty one), the dashboard layout redirects to the
public landing page with the store untouched: the provisioning routine is
never invoked, so no User creation and no Stripe call occurs (the
`redirectHome` outcome carries no provisioning result). -/
theorem dashboard_redirect_without_provisioning (sc : String → Except String String)
    (userId : Option String) (user : Option SessionUser) (db : DB)
    (h : jsFalsy userId = true ∨ user = none ∨
      ∃ u, user = some u ∧ jsFalsy u.emailAddresses.head? = true) :
    DashboardLayout sc userId user db = LayoutResult.redirectHome db := by
  unfold DashboardLayout
  rcases h with h | h | ⟨u, hu, he⟩
  · simp [h]
  · simp [h]
  · subst hu
    cases hju : jsFalsy userId <;> simp [hju, he]

theorem dashboard_redirect_without_provisioning_witness :
    DashboardLayout wSC none none wDB = LayoutResult.redirectHome wDB :=
  dashboard_redirect_without_provisioning wSC none none wDB (Or.inl rfl)

end SaaS
